import Mathlib

/-!
# script_helper: flag resolution and colour-coded logging

A shallow embedding of `main.go` (package `script_helper`).

The Go code is effectful: it writes to the process-wide logger of the standard
`log` package and may end the process.  Both effects are made explicit here:

* `World` is the observable state: the sequence of entries handed to the
  logger so far, oldest first;
* `Outcome α` says how a call ended: it returned a value, it ended the process
  with an exit status (`os.Exit`), or it panicked (nil pointer dereference);
* `Proc α := World → Outcome α` is a Go function body.

An *entry* is the text the logger emits for one `Output` call, without the
header (logger prefix, date, time) that the logger puts in front of it: that
header depends on the logger configuration and on the wall clock and is not
produced by this package.

Go strings are modelled by `String`, the type parameter
`T string | int | bool` by an arbitrary type with decidable equality (only `==`
and `!=` are used on it), and a `*T` argument by `Option T` (`none` is nil).
-/

namespace script_helper

/-! ## Effects -/

/-- The observable state: the entries written to the log sink, oldest first. -/
structure World where
  log : List String
deriving DecidableEq, Repr

/-- How a call ends. -/
inductive Outcome (α : Type) where
  /-- The call returned `v`. -/
  | returned (v : α) (w : World)
  /-- The process was ended by `os.Exit status`. -/
  | exited (status : Nat) (w : World)
  /-- The call panicked (nil pointer dereference). -/
  | panicked (w : World)
deriving DecidableEq, Repr

/-- A Go function body: a state transformer that may end the process. -/
def Proc (α : Type) : Type := World → Outcome α

/-- Returning a value leaves the world unchanged. -/
def Proc.ret {α : Type} (v : α) : Proc α := fun w => Outcome.returned v w

/-- Sequencing: the second statement runs only if the first one returned. -/
def Proc.seq {α β : Type} (m : Proc α) (f : α → Proc β) : Proc β := fun w =>
  match m w with
  | Outcome.returned v w1 => f v w1
  | Outcome.exited status w1 => Outcome.exited status w1
  | Outcome.panicked w1 => Outcome.panicked w1

instance : Monad Proc where
  pure := Proc.ret
  bind := Proc.seq

/-- The world reached by an outcome. -/
def Outcome.world {α : Type} : Outcome α → World
  | Outcome.returned _ w => w
  | Outcome.exited _ w => w
  | Outcome.panicked w => w

/-- The entries a call added to the log: those of the final world after the
first `w.log.length` ones. -/
def written {α : Type} (w : World) (o : Outcome α) : List String :=
  o.world.log.drop w.log.length

/-! ## The standard library pieces that `main.go` calls -/

/-- Go `strings.HasSuffix(s, "\n")`. -/
def endsWithNewline (s : String) : Bool :=
  s.data.getLast? == some '\n'

/-- Go `(*log.Logger).Output(calldepth, s)` on the default logger: one entry is
written, which is `s` followed by a newline if `s` does not already end in one.
The returned error is ignored by every caller in `main.go`. -/
def Output (s : String) : Proc Unit := fun w =>
  Outcome.returned () { log := w.log ++ [if endsWithNewline s then s else s ++ "\n"] }

/-- Go `os.Exit(code)`: the process ends, nothing after it runs. -/
def osExit {α : Type} (code : Nat) : Proc α := fun w => Outcome.exited code w

/-- Go `log.Fatalf(format, v...)`, given the already formatted text
`fmt.Sprintf(format, v...)`: it is `Output` followed by `os.Exit(1)`. -/
def Fatalf {α : Type} (formatted : String) : Proc α := do
  Output formatted
  osExit 1

/-- Go `*p`: a nil pointer dereference panics. -/
def deref {α : Type} : Option α → Proc α
  | some v => Proc.ret v
  | none => fun w => Outcome.panicked w

/-- Go `p && q`: `q` is evaluated only when `p` is true. -/
def andAlso (p q : Proc Bool) : Proc Bool := do
  if (← p) then q else pure false

/-! ## `main.go` -/

/-- Go `red`. -/
def red (s : String) : String :=
  "\x1b[31m" ++ s ++ "\x1b[0m"

/-- Go `green`. -/
def green (s : String) : String :=
  "\x1b[32m" ++ s ++ "\x1b[0m"

/-- Go `yellow`. -/
def yellow (s : String) : String :=
  "\x1b[33m" ++ s ++ "\x1b[0m"

/-- Go `Error(s string, exit ...bool)`.  `err.Error()` is the text given to
`errors.New`, that is `fmt.Sprintf("ERROR: %s\n", red(s))`; the fatal branch
formats it once more with `"ERROR: %s\n"`. -/
def Error (s : String) (exit : List Bool) : Proc Unit := do
  let err : String := "ERROR: " ++ red s ++ "\n"
  if exit.length = 0 then
    Output err
  if h : exit.length > 0 then
    if exit.get ⟨0, h⟩ = true then
      Fatalf ("ERROR: " ++ err ++ "\n")
  Output err

/-- Go `Success(s string)`. -/
def Success (s : String) : Proc Unit := do
  let msg : String := "SUCCESS: " ++ green s ++ "\n"
  Output msg

/-- Go `Warning(s string)`. -/
def Warning (s : String) : Proc Unit := do
  let msg : String := "WARNING: " ++ yellow s ++ "\n"
  Output msg

/-- Go `GetFlag[T string | int | bool](long_flag, short_flag *T, value T,
flag_name ...string) T`. -/
def GetFlag {T : Type} [DecidableEq T] (long_flag short_flag : Option T) (value : T)
    (flag_name : List String) : Proc T := do
  let flagstr : String := if h : flag_name.length > 0 then flag_name.get ⟨0, h⟩ else "flags"
  if (← andAlso (do pure (decide ((← deref long_flag) = value)))
                (do pure (decide ((← deref short_flag) = value)))) then
    Error ("Missing values for " ++ flagstr ++ ". Please provide one.") [true]
  if (← andAlso (do pure (decide ((← deref long_flag) ≠ value)))
                (do pure (decide ((← deref short_flag) ≠ value)))) then
    Error ("Both " ++ flagstr ++ " are set. Please provide only one.") [true]
  if (← deref long_flag) ≠ value then
    return (← deref long_flag)
  return (← deref short_flag)

/-! ## Vocabulary of the specification -/

/-- The label used in the error texts of `GetFlag`: the first supplied label,
or `"flags"` when none is supplied. -/
def labelOf (labels : List String) : String :=
  match labels with
  | [] => "flags"
  | l :: _ => l

/-- The text `sub` occurs in `entry`. -/
def containsText (entry sub : String) : Prop :=
  sub.data <:+: entry.data

instance (entry sub : String) : Decidable (containsText entry sub) :=
  inferInstanceAs (Decidable (sub.data <:+: entry.data))


/-! ## What each call computes -/

/-- A text that ends in a newline is recognised as such. -/
theorem endsWithNewline_append_newline (s : String) : endsWithNewline (s ++ "\n") = true := by
  simp [endsWithNewline, String.data_append]

/-- `Output` writes a newline-terminated text unchanged, as one entry. -/
theorem Output_newline (s : String) (w : World) :
    Output (s ++ "\n") w = Outcome.returned () { log := w.log ++ [s ++ "\n"] } := by
  simp [Output, endsWithNewline_append_newline]

/-- `Error` without a fatal flag: two entries, and the call returns. -/
theorem Error_nil (s : String) (w : World) :
    Error s [] w = Outcome.returned ()
      { log := w.log ++ ["ERROR: " ++ red s ++ "\n", "ERROR: " ++ red s ++ "\n"] } := by
  simp [Error, bind, pure, Proc.seq, Proc.ret, Output_newline]

/-- `Error` with a first fatal flag `false`: one entry, and the call returns. -/
theorem Error_false (s : String) (rest : List Bool) (w : World) :
    Error s (false :: rest) w = Outcome.returned ()
      { log := w.log ++ ["ERROR: " ++ red s ++ "\n"] } := by
  simp [Error, bind, pure, Proc.seq, Proc.ret, Output_newline]

/-- `Error` with a first fatal flag `true`: one entry, formatted a second time,
then exit status 1. -/
theorem Error_true (s : String) (rest : List Bool) (w : World) :
    Error s (true :: rest) w = Outcome.exited 1
      { log := w.log ++ ["ERROR: " ++ ("ERROR: " ++ red s ++ "\n") ++ "\n"] } := by
  simp [Error, Fatalf, osExit, bind, pure, Proc.seq, Proc.ret, Output_newline]

/-- The `flagstr` computed by `GetFlag` is the label of the specification. -/
theorem flagstr_eq_labelOf (labels : List String) :
    (if h : labels.length > 0 then labels.get ⟨0, h⟩ else "flags") = labelOf labels := by
  cases labels <;> simp [labelOf]

/-- `GetFlag` on two non-nil pointers, by cases on the two comparisons. -/
theorem GetFlag_some {T : Type} [DecidableEq T] (a b v : T) (labels : List String) (w : World) :
    GetFlag (some a) (some b) v labels w =
      if a = v ∧ b = v then
        Outcome.exited 1 { log := w.log ++ ["ERROR: " ++ ("ERROR: " ++
          red ("Missing values for " ++ labelOf labels ++ ". Please provide one.") ++ "\n") ++ "\n"] }
      else if a ≠ v ∧ b ≠ v then
        Outcome.exited 1 { log := w.log ++ ["ERROR: " ++ ("ERROR: " ++
          red ("Both " ++ labelOf labels ++ " are set. Please provide only one.") ++ "\n") ++ "\n"] }
      else if a ≠ v then Outcome.returned a w
      else Outcome.returned b w := by
  unfold GetFlag
  rw [flagstr_eq_labelOf]
  by_cases ha : a = v <;> by_cases hb : b = v <;>
    simp [andAlso, deref, bind, pure, Proc.seq, Proc.ret, Error_true, ha, hb]


/-- The entries written by a call that extends the log by `l` are `l`. -/
theorem written_returned {α : Type} (w : World) (v : α) (l : List String) :
    written w (Outcome.returned v { log := w.log ++ l }) = l := by
  simp [written, Outcome.world]

/-- The entries written by an exiting call that extends the log by `l` are `l`. -/
theorem written_exited {α : Type} (w : World) (status : Nat) (l : List String) :
    written w (Outcome.exited status { log := w.log ++ l } : Outcome α) = l := by
  simp [written, Outcome.world]

/-- A call that leaves the world unchanged wrote nothing. -/
theorem written_unchanged {α : Type} (w : World) (v : α) :
    written w (Outcome.returned v w) = [] := by
  simp [written, Outcome.world]

/-- The entry of the fatal path contains the message it was given. -/
theorem containsText_fatal_entry (msg : String) :
    containsText ("ERROR: " ++ ("ERROR: " ++ red msg ++ "\n") ++ "\n") msg := by
  refine ⟨("ERROR: " ++ "ERROR: " ++ "\x1b[31m").data, ("\x1b[0m" ++ "\n" ++ "\n").data, ?_⟩
  simp [red, String.data_append]

/-- A level, a colour start, the message, the colour reset and the newline,
grouped as the code builds them and as the specification writes them. -/
theorem line_assoc (level start s reset nl : String) :
    level ++ (start ++ s ++ reset) ++ nl = level ++ start ++ s ++ reset ++ nl := by
  simp only [String.append_assoc]

/-- The line that `Error` builds, as the specification writes it. -/
theorem red_line (s : String) :
    "ERROR: " ++ red s ++ "\n" = "ERROR: " ++ "\x1b[31m" ++ s ++ "\x1b[0m" ++ "\n" :=
  line_assoc _ _ _ _ _

/-! ## The claims -/

/-- C1. For every value type with `==` (in particular `string`, `int` and
`bool`), when exactly one of `long`, `short` differs from `sentinel`, `GetFlag`
returns the one that differs, for every label list; the world is unchanged (no
entry is written) and the process is not ended. -/
theorem GetFlag_exactly_one_set {T : Type} [DecidableEq T] (long short sentinel : T)
    (labels : List String) (w : World)
    (h : (long ≠ sentinel ∧ short = sentinel) ∨ (long = sentinel ∧ short ≠ sentinel)) :
    (long ≠ sentinel →
      GetFlag (some long) (some short) sentinel labels w = Outcome.returned long w) ∧
    (short ≠ sentinel →
      GetFlag (some long) (some short) sentinel labels w = Outcome.returned short w) ∧
    written w (GetFlag (some long) (some short) sentinel labels w) = [] := by
  rw [GetFlag_some]
  rcases h with ⟨hl, hs⟩ | ⟨hl, hs⟩
  · simp [hl, hs, written_unchanged]
  · simp [hl, hs, written_unchanged]

/-- Witnesses of C1: the scenarios `GetFlag("custom", "", "")`, on strings with
the long flag set, and the symmetric one. -/
theorem GetFlag_exactly_one_set_witness :
    (("custom" ≠ "" ∧ "" = "") ∨ ("custom" = "" ∧ "" ≠ "")) ∧
    (("custom" ≠ "" →
      GetFlag (some "custom") (some "") "" ["mode"] { log := [] }
        = Outcome.returned "custom" { log := [] }) ∧
    ("" ≠ "" →
      GetFlag (some "custom") (some "") "" ["mode"] { log := [] }
        = Outcome.returned "" { log := [] }) ∧
    written { log := [] } (GetFlag (some "custom") (some "") "" ["mode"] { log := [] }) = []) :=
  ⟨Or.inl ⟨by decide, rfl⟩,
   GetFlag_exactly_one_set "custom" "" "" ["mode"] { log := [] } (Or.inl ⟨by decide, rfl⟩)⟩

/-- C2. When both `long` and `short` equal `sentinel`, `GetFlag` returns no
value: it ends the process with a non-zero exit status, having written one
entry that contains "Missing values for L. Please provide one.", where L is the
first supplied label, or "flags" when there is none. -/
theorem GetFlag_both_unset {T : Type} [DecidableEq T] (long short sentinel : T)
    (labels : List String) (w : World) (hl : long = sentinel) (hs : short = sentinel) :
    ∃ status entry,
      GetFlag (some long) (some short) sentinel labels w
        = Outcome.exited status { log := w.log ++ [entry] } ∧
      status ≠ 0 ∧
      containsText entry ("Missing values for " ++ labelOf labels ++ ". Please provide one.") := by
  refine ⟨1, _, ?_, by decide, containsText_fatal_entry _⟩
  rw [GetFlag_some]
  simp [hl, hs]

/-- Witness of C2: the scenario `GetFlag("", "", "")`. -/
theorem GetFlag_both_unset_witness :
    ("" = "" ∧ "" = "") ∧
    ∃ status entry,
      GetFlag (some "") (some "") "" [] { log := [] }
        = Outcome.exited status { log := [] ++ [entry] } ∧
      status ≠ 0 ∧
      containsText entry ("Missing values for " ++ labelOf [] ++ ". Please provide one.") :=
  ⟨⟨rfl, rfl⟩, GetFlag_both_unset "" "" "" [] { log := [] } rfl rfl⟩

/-- C3. When both `long` and `short` differ from `sentinel`, `GetFlag` returns
no value: it ends the process with a non-zero exit status, having written one
entry that contains "Both L are set. Please provide only one.", where L is the
first supplied label, or "flags" when there is none. -/
theorem GetFlag_both_set {T : Type} [DecidableEq T] (long short sentinel : T)
    (labels : List String) (w : World) (hl : long ≠ sentinel) (hs : short ≠ sentinel) :
    ∃ status entry,
      GetFlag (some long) (some short) sentinel labels w
        = Outcome.exited status { log := w.log ++ [entry] } ∧
      status ≠ 0 ∧
      containsText entry ("Both " ++ labelOf labels ++ " are set. Please provide only one.") := by
  refine ⟨1, _, ?_, by decide, containsText_fatal_entry _⟩
  rw [GetFlag_some]
  simp [hl, hs]

/-- Witness of C3: the scenario `GetFlag("a", "b", "")`, with a label. -/
theorem GetFlag_both_set_witness :
    ("a" ≠ "" ∧ "b" ≠ "") ∧
    ∃ status entry,
      GetFlag (some "a") (some "b") "" ["mode"] { log := [] }
        = Outcome.exited status { log := [] ++ [entry] } ∧
      status ≠ 0 ∧
      containsText entry ("Both " ++ labelOf ["mode"] ++ " are set. Please provide only one.") :=
  ⟨⟨by decide, by decide⟩,
   GetFlag_both_set "a" "b" "" ["mode"] { log := [] } (by decide) (by decide)⟩


/-- C4 (the code departs from the claim). For every message `s` and every
fatal-flag list whose first element is `true`, `Error` writes exactly one entry
and ends the process with exit status 1, but the entry is the documented line
formatted a second time, `"ERROR: " ++ ("ERROR: " ++ red s ++ "\n") ++ "\n"`,
which is never equal to the documented
`"ERROR: " ++ "\x1b[31m" ++ s ++ "\x1b[0m" ++ "\n"`. -/
theorem Error_fatal_entry_formatted_twice (s : String) (rest : List Bool) (w : World) :
    Error s (true :: rest) w = Outcome.exited 1
      { log := w.log ++ ["ERROR: " ++ ("ERROR: " ++ red s ++ "\n") ++ "\n"] } ∧
    written w (Error s (true :: rest) w)
      = ["ERROR: " ++ ("ERROR: " ++ red s ++ "\n") ++ "\n"] ∧
    "ERROR: " ++ ("ERROR: " ++ red s ++ "\n") ++ "\n"
      ≠ "ERROR: " ++ "\x1b[31m" ++ s ++ "\x1b[0m" ++ "\n" := by
  refine ⟨Error_true s rest w, ?_, ?_⟩
  · rw [Error_true, written_exited]
  · intro h
    have hlen := congrArg String.length h
    simp only [red, String.length_append] at hlen
    have h1 : "ERROR: ".length = 7 := rfl
    have h2 : "\n".length = 1 := rfl
    omega

/-- C5. For every message `s` and every fatal-flag list that is empty or whose
first element is `false`, whatever follows it, `Error` returns (the process
is not ended), writes at least one entry, and every entry it writes equals
`"ERROR: " ++ "\x1b[31m" ++ s ++ "\x1b[0m" ++ "\n"`. -/
theorem Error_nonfatal_returns (s : String) (flags : List Bool) (w : World)
    (h : flags = [] ∨ flags.head? = some false) :
    (∃ w1, Error s flags w = Outcome.returned () w1) ∧
    written w (Error s flags w) ≠ [] ∧
    ∀ entry ∈ written w (Error s flags w),
      entry = "ERROR: " ++ "\x1b[31m" ++ s ++ "\x1b[0m" ++ "\n" := by
  rcases h with h | h
  · subst h
    rw [Error_nil, written_returned]
    simp [red_line]
  · cases flags with
    | nil => simp at h
    | cons b rest =>
      simp only [List.head?_cons, Option.some.injEq] at h
      subst h
      rw [Error_false, written_returned]
      simp [red_line]

/-- Witness of C5: a first fatal flag `false` followed by `true`. -/
theorem Error_nonfatal_returns_witness :
    ([false, true] = [] ∨ [false, true].head? = some false) ∧
    ((∃ w1, Error "x" [false, true] { log := [] } = Outcome.returned () w1) ∧
    written { log := [] } (Error "x" [false, true] { log := [] }) ≠ [] ∧
    ∀ entry ∈ written { log := [] } (Error "x" [false, true] { log := [] }),
      entry = "ERROR: " ++ "\x1b[31m" ++ "x" ++ "\x1b[0m" ++ "\n") :=
  ⟨Or.inr rfl, Error_nonfatal_returns "x" [false, true] { log := [] } (Or.inr rfl)⟩

/-- C6. For every message `s`, `Warning s` returns (the process is not ended)
having written exactly one entry, equal to
`"WARNING: " ++ "\x1b[33m" ++ s ++ "\x1b[0m" ++ "\n"`. -/
theorem Warning_writes_once (s : String) (w : World) :
    Warning s w = Outcome.returned ()
      { log := w.log ++ ["WARNING: " ++ "\x1b[33m" ++ s ++ "\x1b[0m" ++ "\n"] } ∧
    written w (Warning s w) = ["WARNING: " ++ "\x1b[33m" ++ s ++ "\x1b[0m" ++ "\n"] := by
  have h : Warning s w = Outcome.returned ()
      { log := w.log ++ ["WARNING: " ++ "\x1b[33m" ++ s ++ "\x1b[0m" ++ "\n"] } := by
    rw [← line_assoc]
    exact Output_newline _ w
  exact ⟨h, by rw [h, written_returned]⟩

/-- C7. For every message `s`, `Success s` returns (the process is not ended)
having written exactly one entry, equal to
`"SUCCESS: " ++ "\x1b[32m" ++ s ++ "\x1b[0m" ++ "\n"`. -/
theorem Success_writes_once (s : String) (w : World) :
    Success s w = Outcome.returned ()
      { log := w.log ++ ["SUCCESS: " ++ "\x1b[32m" ++ s ++ "\x1b[0m" ++ "\n"] } ∧
    written w (Success s w) = ["SUCCESS: " ++ "\x1b[32m" ++ s ++ "\x1b[0m" ++ "\n"] := by
  have h : Success s w = Outcome.returned ()
      { log := w.log ++ ["SUCCESS: " ++ "\x1b[32m" ++ s ++ "\x1b[0m" ++ "\n"] } := by
    rw [← line_assoc]
    exact Output_newline _ w
  exact ⟨h, by rw [h, written_returned]⟩


/-- C8. Whenever `GetFlag` fails, exactly one entry is written during the
call, and it is the entry of the fatal error path for the message of the
condition that holds: with both values equal to `sentinel` the call ends with
exit status 1 and the entries written are the single fatal entry of
"Missing values for L. Please provide one."; with both values different from
`sentinel` it ends with exit status 1 and the entries written are the single
fatal entry of "Both L are set. Please provide only one."; in either case the
message occurs in exactly one written entry, and the two conditions cannot hold
together. -/
theorem GetFlag_failure_writes_one_entry {T : Type} [DecidableEq T] (long short sentinel : T)
    (labels : List String) (w : World)
    (h : (long = sentinel ∧ short = sentinel) ∨ (long ≠ sentinel ∧ short ≠ sentinel)) :
    (long = sentinel ∧ short = sentinel →
      GetFlag (some long) (some short) sentinel labels w
        = Outcome.exited 1 { log := w.log ++ ["ERROR: " ++ ("ERROR: " ++
            red ("Missing values for " ++ labelOf labels ++ ". Please provide one.")
            ++ "\n") ++ "\n"] } ∧
      written w (GetFlag (some long) (some short) sentinel labels w)
        = ["ERROR: " ++ ("ERROR: " ++
            red ("Missing values for " ++ labelOf labels ++ ". Please provide one.")
            ++ "\n") ++ "\n"] ∧
      ((written w (GetFlag (some long) (some short) sentinel labels w)).filter
        (fun entry => decide (containsText entry
          ("Missing values for " ++ labelOf labels ++ ". Please provide one.")))).length = 1) ∧
    (long ≠ sentinel ∧ short ≠ sentinel →
      GetFlag (some long) (some short) sentinel labels w
        = Outcome.exited 1 { log := w.log ++ ["ERROR: " ++ ("ERROR: " ++
            red ("Both " ++ labelOf labels ++ " are set. Please provide only one.")
            ++ "\n") ++ "\n"] } ∧
      written w (GetFlag (some long) (some short) sentinel labels w)
        = ["ERROR: " ++ ("ERROR: " ++
            red ("Both " ++ labelOf labels ++ " are set. Please provide only one.")
            ++ "\n") ++ "\n"] ∧
      ((written w (GetFlag (some long) (some short) sentinel labels w)).filter
        (fun entry => decide (containsText entry
          ("Both " ++ labelOf labels ++ " are set. Please provide only one.")))).length = 1) ∧
    (written w (GetFlag (some long) (some short) sentinel labels w)).length = 1 ∧
    ¬ ((long = sentinel ∧ short = sentinel) ∧ (long ≠ sentinel ∧ short ≠ sentinel)) := by
  have hmiss : long = sentinel ∧ short = sentinel →
      GetFlag (some long) (some short) sentinel labels w
        = Outcome.exited 1 { log := w.log ++ ["ERROR: " ++ ("ERROR: " ++
            red ("Missing values for " ++ labelOf labels ++ ". Please provide one.")
            ++ "\n") ++ "\n"] } := by
    intro hc
    rw [GetFlag_some, if_pos hc]
  have hboth : long ≠ sentinel ∧ short ≠ sentinel →
      GetFlag (some long) (some short) sentinel labels w
        = Outcome.exited 1 { log := w.log ++ ["ERROR: " ++ ("ERROR: " ++
            red ("Both " ++ labelOf labels ++ " are set. Please provide only one.")
            ++ "\n") ++ "\n"] } := by
    intro hc
    rw [GetFlag_some, if_neg (fun hm => hc.1 hm.1), if_pos hc]
  refine ⟨fun hc => ⟨hmiss hc, ?_, ?_⟩, fun hc => ⟨hboth hc, ?_, ?_⟩, ?_,
    fun hc => hc.2.1 hc.1.1⟩
  · rw [hmiss hc, written_exited]
  · rw [hmiss hc, written_exited, List.filter_cons_of_pos]
    · rfl
    · exact decide_eq_true (containsText_fatal_entry _)
  · rw [hboth hc, written_exited]
  · rw [hboth hc, written_exited, List.filter_cons_of_pos]
    · rfl
    · exact decide_eq_true (containsText_fatal_entry _)
  · rcases h with hc | hc
    · rw [hmiss hc, written_exited]
      rfl
    · rw [hboth hc, written_exited]
      rfl

/-- Witness of C8: the integers `3` and `4` against the sentinel `0`, on a log
that already holds an entry. -/
theorem GetFlag_failure_writes_one_entry_witness :
    (((3 : Int) = 0 ∧ (4 : Int) = 0) ∨ ((3 : Int) ≠ 0 ∧ (4 : Int) ≠ 0)) ∧
    GetFlag (some (3 : Int)) (some 4) 0 [] { log := ["old"] }
      = Outcome.exited 1 { log := ["old"] ++ ["ERROR: " ++ ("ERROR: " ++
          red ("Both " ++ labelOf [] ++ " are set. Please provide only one.")
          ++ "\n") ++ "\n"] } ∧
    (written { log := ["old"] }
      (GetFlag (some (3 : Int)) (some 4) 0 [] { log := ["old"] })).length = 1 :=
  ⟨Or.inr ⟨by decide, by decide⟩,
   ((GetFlag_failure_writes_one_entry (3 : Int) 4 0 [] { log := ["old"] }
     (Or.inr ⟨by decide, by decide⟩)).2.1 ⟨by decide, by decide⟩).1,
   (GetFlag_failure_writes_one_entry (3 : Int) 4 0 [] { log := ["old"] }
     (Or.inr ⟨by decide, by decide⟩)).2.2.1⟩

/-- C9, as stated, fails: `Error("x", false)` does not exit and writes the
message once, not twice. -/
theorem Error_false_flag_not_twice :
    Error "x" [false] { log := [] }
      = Outcome.returned () { log := ["ERROR: \x1b[31mx\x1b[0m\n"] } ∧
    (written { log := [] } (Error "x" [false] { log := [] })).count
      ("ERROR: " ++ "\x1b[31m" ++ "x" ++ "\x1b[0m" ++ "\n") ≠ 2 := by
  decide

/-- C9, amended. For every message `s`, a call of `Error` with no fatal flag
returns having written the message exactly twice, and a call whose first fatal
flag is `false` returns having written it exactly once. -/
theorem Error_nonfatal_write_count (s : String) (rest : List Bool) (w : World) :
    (Error s [] w = Outcome.returned ()
        { log := w.log ++ ["ERROR: " ++ "\x1b[31m" ++ s ++ "\x1b[0m" ++ "\n",
                           "ERROR: " ++ "\x1b[31m" ++ s ++ "\x1b[0m" ++ "\n"] } ∧
      (written w (Error s [] w)).count
        ("ERROR: " ++ "\x1b[31m" ++ s ++ "\x1b[0m" ++ "\n") = 2) ∧
    (Error s (false :: rest) w = Outcome.returned ()
        { log := w.log ++ ["ERROR: " ++ "\x1b[31m" ++ s ++ "\x1b[0m" ++ "\n"] } ∧
      (written w (Error s (false :: rest) w)).count
        ("ERROR: " ++ "\x1b[31m" ++ s ++ "\x1b[0m" ++ "\n") = 1) := by
  rw [Error_nil, Error_false, written_returned, written_returned, red_line]
  simp

/-- C10. `GetFlag` is symmetric in its two flag arguments: for all values `a`,
`b`, `sentinel` and all labels, `GetFlag(a, b, ...)` and `GetFlag(b, a, ...)`
have the same outcome, that is the same returned value, or the same exit status
with the same entry written. -/
theorem GetFlag_symmetric {T : Type} [DecidableEq T] (a b sentinel : T)
    (labels : List String) (w : World) :
    GetFlag (some a) (some b) sentinel labels w = GetFlag (some b) (some a) sentinel labels w := by
  rw [GetFlag_some, GetFlag_some]
  by_cases ha : a = sentinel <;> by_cases hb : b = sentinel <;> simp [ha, hb]

end script_helper
